import Mathlib

/-!
Verification of the Enhanced Image Generation tool
(`src/enhanced_image_generation.py`) against its natural-language
specification.  The Python source is shallowly embedded: every function of
the source that the claims touch is translated into an executable Lean
definition, Python exceptions become `Except Unit`, the host filesystem and
the event transport become explicit models passed as arguments, and the
mutable host setting `__request__.app.state.config.IMAGE_STEPS` becomes
explicit state threading.
-/

namespace ImageGen

/-! ## Character-level string helpers

Python string primitives (`split`, `strip`, `lower`, `startswith`, `in`)
are modelled on the character list `String.data` so that every definition
reduces inside the kernel. -/

/-- Model of Python `str.split(sep)` for a one-character separator. -/
def splitChar (sep : Char) : List Char → List (List Char)
  | [] => [[]]
  | c :: rest =>
    let r := splitChar sep rest
    if c = sep then [] :: r
    else
      match r with
      | g :: gs => (c :: g) :: gs
      | [] => [[c]]

/-- Model of Python `str.split(sep)` returning strings. -/
def splitStr (sep : Char) (s : String) : List String :=
  (splitChar sep s.data).map String.mk

/-- Whitespace recognized by the model of Python `str.strip()`. -/
def isSpaceChar (c : Char) : Bool :=
  c == ' ' || c == '\t' || c == '\n' || c == '\r'

/-- Model of Python `str.strip()`. -/
def trimStr (s : String) : String :=
  String.mk (((s.data.dropWhile isSpaceChar).reverse.dropWhile isSpaceChar).reverse)

/-- Model of Python `str.lower()` (ASCII case folding). -/
def lowerStr (s : String) : String :=
  String.mk (s.data.map Char.toLower)

/-- Model of Python `str.startswith(p)`. -/
def strStartsWith (s p : String) : Bool :=
  p.data.isPrefixOf s.data

/-- Occurrence of one character list inside another. -/
def infixAux (sub : List Char) : List Char → Bool
  | [] => sub.isEmpty
  | l@(_ :: rest) => sub.isPrefixOf l || infixAux sub rest

/-- Model of Python `sub in s` substring containment. -/
def strContainsSub (s sub : String) : Bool :=
  infixAux sub.data s.data

/-! ## Base64 (model of `base64.b64encode`) -/

/-- The standard base64 alphabet. -/
def b64Chars : List Char :=
  "ABCDEFGHIJKLMNOPQRSTUVWXYZabcdefghijklmnopqrstuvwxyz0123456789+/".data

/-- Character of the base64 alphabet at a given index. -/
def b64Char (n : Nat) : Char := b64Chars.getD n 'A'

/-- Standard base64 encoding of a byte sequence, with `=` padding, as
performed by Python `base64.b64encode(...)`.  Bytes are `Nat`s below 256;
the `% 64`-style guards are the identity on actual bytes. -/
def base64Encode : List Nat → String
  | [] => ""
  | [a] =>
    String.mk [b64Char (a / 4 % 64), b64Char (a % 4 * 16)] ++ "=="
  | [a, b] =>
    String.mk [b64Char (a / 4 % 64), b64Char (a % 4 * 16 + b / 16 % 16),
      b64Char (b % 16 * 4)] ++ "="
  | a :: b :: c :: rest =>
    String.mk [b64Char (a / 4 % 64), b64Char (a % 4 * 16 + b / 16 % 16),
      b64Char (b % 16 * 4 + c / 64 % 4), b64Char (c % 64)] ++ base64Encode rest

/-! ## Pathlib model

Only the parts of `pathlib.Path` that the source uses: `p.name` (for
`p.suffix`) for ordinary POSIX-style paths. -/

/-- Model of `pathlib.PurePath.name` for POSIX paths: the last component,
ignoring empty components and `.` components. -/
def pathName (path : String) : String :=
  ((splitStr '/' path).filter (fun c => c ≠ "" && c ≠ ".")).getLastD ""

/-- Index of the last `.` in a character list, if any. -/
def lastDotIdxAux : List Char → Nat → Option Nat → Option Nat
  | [], _, acc => acc
  | c :: rest, i, acc =>
    lastDotIdxAux rest (i + 1) (if c = '.' then some i else acc)

/-- Model of `pathlib.PurePath.suffix` applied to a file name: `name[i:]`
for the last dot index `i` when `0 < i < len(name) - 1`, else `""`
(CPython's definition). -/
def pySuffix (name : String) : String :=
  match lastDotIdxAux name.data 0 none with
  | some i =>
    if 0 < i ∧ i < name.length - 1 then String.mk (name.data.drop i) else ""
  | none => ""

/-! ## Configuration (`Tools.Valves`) -/

/-- The `EMIT_METHOD_PRIORITY` literal type. -/
inductive EmitPriority where
  | auto
  | direct
  | markdown
  | html
deriving DecidableEq

/-- Admin-level valves of the tool (`Tools.Valves`).  Field defaults follow
the pydantic `Field(default=...)` declarations. -/
structure Valves where
  DEBUG_ENABLED : Bool
  VERBOSE_LOGGING : Bool
  EMIT_METHOD_PRIORITY : EmitPriority
  MAX_FILE_SIZE_MB : Int
  SUPPORTED_FORMATS : String
deriving DecidableEq

/-- The valves with their pydantic defaults. -/
def defaultValves : Valves :=
  { DEBUG_ENABLED := false
    VERBOSE_LOGGING := false
    EMIT_METHOD_PRIORITY := .auto
    MAX_FILE_SIZE_MB := 10
    SUPPORTED_FORMATS := "png,jpg,jpeg,webp,gif,bmp,tiff" }

/-! ## Filesystem model

The local filesystem seen through the operations the source performs:
`Path.exists`, `Path.is_file`, `Path.stat().st_size` and reading the bytes
of the file.  All operations are total functions of the path. -/

/-- Host filesystem model. -/
structure FileSys where
  pathExists : String → Bool
  isFile : String → Bool
  size : String → Nat
  content : String → List Nat

/-- A filesystem with no files at all. -/
def fsEmpty : FileSys :=
  { pathExists := fun _ => false
    isFile := fun _ => false
    size := fun _ => 0
    content := fun _ => [] }

/-! ## `_make_data_uri_from_b64` and `_path_to_data_uri` -/

/-- Translation of `_make_data_uri_from_b64` (source lines 173-179): a value
already in `data:` form is returned unchanged, otherwise it becomes the
payload of a `data:<mime>;base64,` URI. -/
def make_data_uri_from_b64 (b64 : String) (mime : String) : String :=
  if strStartsWith b64 "data:" then b64
  else "data:" ++ mime ++ ";base64," ++ b64

/-- The `supported_exts` list computed inside `_path_to_data_uri` (source
lines 204-207): `"." + ext.strip().lower()` for each comma-separated
entry of `SUPPORTED_FORMATS`. -/
def supported_exts (formats : String) : List String :=
  (splitStr ',' formats).map (fun ext => "." ++ lowerStr (trimStr ext))

/-- The `mime_map` table of `_path_to_data_uri` (source lines 222-230). -/
def mime_map : List (String × String) :=
  [(".jpg", "image/jpeg"), (".jpeg", "image/jpeg"), (".webp", "image/webp"),
   (".gif", "image/gif"), (".bmp", "image/bmp"), (".tiff", "image/tiff"),
   (".png", "image/png")]

/-- Association-list lookup with a default (model of `dict.get(k, d)`). -/
def lookupD (m : List (String × String)) (k : String) (d : String) : String :=
  match m.find? (fun kv => kv.1 == k) with
  | some kv => kv.2
  | none => d

/-- Translation of `_path_to_data_uri` (source lines 181-243).  The Python
function wraps its body in `try/except` and returns `""` on any failure;
with the total filesystem model every check is explicit, so the function is
total and returns `""` exactly on the explicit rejection paths (missing
path, not a regular file, oversized, unsupported extension). -/
def path_to_data_uri (fs : FileSys) (valves : Valves) (path : String) : String :=
  if fs.pathExists path = false then ""
  else if fs.isFile path = false then ""
  else
    let file_size : Nat := fs.size path
    let max_size_bytes : Int := valves.MAX_FILE_SIZE_MB * 1024 * 1024
    if (file_size : Int) > max_size_bytes then ""
    else if (supported_exts valves.SUPPORTED_FORMATS).contains
        (lowerStr (pySuffix (pathName path))) = false then ""
    else
      let b64 := base64Encode (fs.content path)
      let detected_mime :=
        lookupD mime_map (lowerStr (pySuffix (pathName path))) "image/png"
      "data:" ++ detected_mime ++ ";base64," ++ b64

/-! ## Python values

Image descriptors and user objects are loosely-typed Python values.  The
shapes the source discriminates on are `None`, `str`, numbers and `dict`;
`dict` values may nest.  A mutual inductive keeps all recursion structural
so that every definition evaluates inside the kernel. -/

mutual

/-- A Python value as seen by the tool: `None`, `str`, `int` or `dict`. -/
inductive PyVal where
  | pyNone
  | str (s : String)
  | int (n : Int)
  | dict (fields : PyFields)

/-- The key/value entries of a Python `dict`, in insertion order. -/
inductive PyFields where
  | nil
  | cons (key : String) (val : PyVal) (rest : PyFields)

end

/-- Lookup of a key in a `dict` (model of `it[field]` / `field in it`). -/
def dictGet : PyFields → String → Option PyVal
  | .nil, _ => none
  | .cons k v rest, key => if k == key then some v else dictGet rest key

/-- Python truthiness of the modelled values: `None` is falsy, a string is
truthy iff non-empty, an int iff non-zero, a dict iff non-empty. -/
def truthy : PyVal → Bool
  | .pyNone => false
  | .str s => !(s == "")
  | .int n => !(n == 0)
  | .dict .nil => false
  | .dict (.cons _ _ _) => true

/-- Whether a value is a non-empty Python string. -/
def isNonEmptyString : PyVal → Bool
  | .str s => !(s == "")
  | _ => false

/-- Minimal JSON string escaping (backslash and double quote), as
`json.dumps` performs on the strings appearing in the claims. -/
def escapeJson (s : String) : String :=
  String.mk (s.data.foldr
    (fun c acc =>
      if c = '"' then '\\' :: '"' :: acc
      else if c = '\\' then '\\' :: '\\' :: acc
      else c :: acc) [])

mutual

/-- Model of Python `json.dumps` on the embedded values (default
separators: `", "` between entries and `": "` after keys). -/
def jsonDumps : PyVal → String
  | .pyNone => "null"
  | .str s => "\"" ++ escapeJson s ++ "\""
  | .int n => toString n
  | .dict fields => "\x7b" ++ jsonDumpsFields fields ++ "\x7d"
termination_by structural v => v

/-- JSON serialization of dict entries. -/
def jsonDumpsFields : PyFields → String
  | .nil => ""
  | .cons k v rest =>
    "\"" ++ escapeJson k ++ "\": " ++ jsonDumps v ++
      (match rest with | .nil => "" | .cons _ _ _ => ", ") ++
      jsonDumpsFields rest
termination_by structural fields => fields

end

mutual

/-- Model of Python `repr(v)` as used for values nested inside a dict. -/
def pyRepr : PyVal → String
  | .pyNone => "None"
  | .str s => "'" ++ s ++ "'"
  | .int n => toString n
  | .dict fields => "\x7b" ++ pyReprFields fields ++ "\x7d"
termination_by structural v => v

/-- Representation of dict entries inside `str`/`repr` of a dict. -/
def pyReprFields : PyFields → String
  | .nil => ""
  | .cons k v rest =>
    "'" ++ k ++ "': " ++ pyRepr v ++
      (match rest with | .nil => "" | .cons _ _ _ => ", ") ++
      pyReprFields rest
termination_by structural fields => fields

end

/-- Model of Python `str(v)` at top level: strings print bare, `None`
prints `None`, dicts print with `repr`ed parts. -/
def pyStr : PyVal → String
  | .pyNone => "None"
  | .str s => s
  | .int n => toString n
  | .dict fields => "\x7b" ++ pyReprFields fields ++ "\x7d"

/-! ## Input resolver (the per-item processing loop of `generate_image`,
source lines 480-569) -/

/-- The fixed `priority_fields` list (source lines 493-503). -/
def priority_fields : List String :=
  ["url", "b64", "image", "data", "base64", "file_path", "path", "src",
   "image_url"]

/-- Processing of a `url` / `file_path` / `path` field value (source lines
512-528).  `Path(value)` raises for a non-string value and the enclosing
`except` then passes the value through unchanged; for a string naming an
existing regular file the value is materialized with `_path_to_data_uri`,
otherwise it is passed through as an opaque URL. -/
def resolvePathField (fs : FileSys) (valves : Valves) (v : PyVal) : PyVal :=
  match v with
  | .str s =>
    if fs.pathExists s && fs.isFile s then .str (path_to_data_uri fs valves s)
    else .str s
  | other => other

/-- Translation of the `for field in priority_fields` loop over one dict
descriptor (source lines 505-542).  The result is `none` when the loop
finishes without `break` (no usable field), `some p` when a branch sets
`processed_url = p` and breaks, and `.error ()` when the loop raises — the
`b64`/`base64` branch calls `value.startswith` outside any `try`, which
raises `AttributeError` on a non-string value. -/
def scanFields (fs : FileSys) (valves : Valves) (it : PyFields) :
    List String → Except Unit (Option PyVal)
  | [] => .ok none
  | field :: rest =>
    match dictGet it field with
    | none => scanFields fs valves it rest
    | some v =>
      if truthy v = false then scanFields fs valves it rest
      else if field == "url" || field == "file_path" || field == "path" then
        .ok (some (resolvePathField fs valves v))
      else if field == "b64" || field == "base64" then
        match v with
        | .str s => .ok (some (.str (make_data_uri_from_b64 s "image/png")))
        | _ => .error ()
      else
        match v with
        | .str s =>
          if strStartsWith s "data:" || strStartsWith s "http" then
            .ok (some (.str s))
          else scanFields fs valves it rest
        | _ => scanFields fs valves it rest

/-- Translation of the whole per-item processing (source lines 480-563):
dict descriptors run the priority-field loop with a `json.dumps` fallback
for a missing or falsy `processed_url`; string descriptors are classified
local-path vs URL by a filesystem test; any other value is stringified. -/
def processItem (fs : FileSys) (valves : Valves) (it : PyVal) :
    Except Unit PyVal :=
  match it with
  | .dict fields =>
    match scanFields fs valves fields priority_fields with
    | .error e => .error e
    | .ok (some p) =>
      if truthy p then .ok p else .ok (.str (jsonDumps (.dict fields)))
    | .ok none => .ok (.str (jsonDumps (.dict fields)))
  | .str s =>
    if fs.pathExists s && fs.isFile s then
      .ok (.str (path_to_data_uri fs valves s))
    else .ok (.str s)
  | other => .ok (.str (pyStr other))

/-! ## Delivery dispatcher (`_emit_image` and its three methods,
source lines 265-372) -/

/-- Typed events sent to the host event transport `__event_emitter__`. -/
inductive EmitEvent where
  | image (url : PyVal) (width height : Option Int) (alt : String)
  | message (content : String)
  | status (description : String) (done : Bool)

/-- The host event transport: `none` models `__event_emitter__ = None`; a
function models the awaited callable, returning `true` when the call
completes and `false` when it raises. -/
abbrev Emitter : Type := Option (EmitEvent → Bool)

/-- Width/height included in a direct image event only when the Python test
`w and w > 0` holds. -/
def dimIfPositive : Option Int → Option Int
  | some x => if x > 0 then some x else none
  | none => none

/-- The Python expression `w or 512` on an optional dimension. -/
def dimOrDefault : Option Int → Int → Int
  | some x, d => if x == 0 then d else x
  | none, d => d

/-- Translation of `_emit_image_direct` (source lines 265-284): succeeds iff
the emitter is present and the `image` event call does not raise. -/
def emit_image_direct (em : Emitter) (url : PyVal) (w h : Option Int)
    (alt : String) : Bool :=
  match em with
  | none => false
  | some f => f (.image url (dimIfPositive w) (dimIfPositive h) alt)

/-- Translation of `_emit_image_markdown` (source lines 286-301). -/
def emit_image_markdown (em : Emitter) (url : PyVal) (alt : String) : Bool :=
  match em with
  | none => false
  | some f => f (.message ("![" ++ alt ++ "](" ++ pyStr url ++ ")"))

/-- Translation of `_emit_image_html` (source lines 303-317). -/
def emit_image_html (em : Emitter) (url : PyVal) (w h : Option Int)
    (alt : String) : Bool :=
  match em with
  | none => false
  | some f =>
    f (.message ("<img src=\"" ++ pyStr url ++ "\" alt=\"" ++ alt ++
      "\" style=\"max-width: " ++ toString (dimOrDefault w 512) ++
      "px; max-height: " ++ toString (dimOrDefault h 512) ++
      "px; border-radius: 8px; box-shadow: 0 2px 8px rgba(0,0,0,0.1);\">"))

/-- The three delivery methods of the dispatcher. -/
inductive EmitMethod where
  | direct
  | markdown
  | html
deriving DecidableEq

/-- The ordered method list built by `_emit_image` from
`EMIT_METHOD_PRIORITY` (source lines 339-363). -/
def methodsFor : EmitPriority → List EmitMethod
  | .direct => [.direct, .markdown, .html]
  | .markdown => [.markdown, .direct, .html]
  | .html => [.html, .direct, .markdown]
  | .auto => [.direct, .markdown, .html]

/-- One delivery attempt of a given method. -/
def runMethod (em : Emitter) (url : PyVal) (w h : Option Int) (alt : String) :
    EmitMethod → Bool
  | .direct => emit_image_direct em url w h alt
  | .markdown => emit_image_markdown em url alt
  | .html => emit_image_html em url w h alt

/-- The `for method_name, method_func in methods` loop (source lines
366-372): try each method in order, stop at the first success; the result
records the success flag and the list of methods attempted. -/
def tryMethods (run : EmitMethod → Bool) : List EmitMethod → Bool × List EmitMethod
  | [] => (false, [])
  | m :: rest =>
    if run m then (true, [m])
    else
      let r := tryMethods run rest
      (r.1, m :: r.2)

/-- The automatic alt text (source lines 331-333): when enabled and no alt
was given, a 50-character prefix of the prompt with an index suffix. -/
def effectiveAlt (auto_alt : Bool) (alt prompt : String) (index : Nat) : String :=
  if auto_alt && alt == "" then
    "Imagen generada: " ++
      (if prompt.length > 50 then String.mk (prompt.data.take 50) ++ "..."
       else prompt) ++ " - #" ++ toString index
  else alt

/-- Number of entries of a dict. -/
def pyFieldsLength : PyFields → Nat
  | .nil => 0
  | .cons _ _ rest => pyFieldsLength rest + 1

/-- Size of the value as computed by Python `len(...)`, where defined:
strings and dicts have a length, `None` and ints do not. -/
def pyLen : PyVal → Option Nat
  | .str s => some s.length
  | .dict fields => some (pyFieldsLength fields)
  | _ => none

/-- Translation of `_emit_image` (source lines 319-372).  An empty (falsy)
input returns failure immediately; the debug f-string
`f"URL length: \x7blen(url_or_datauri)\x7d..."` is evaluated
unconditionally, so a truthy value without a `len` (such as an int) raises
`TypeError`, which escapes `_emit_image`; otherwise the configured method
order is attempted until the first success. -/
def emit_image (valves : Valves) (em : Emitter) (prompt : String)
    (auto_alt : Bool) (urlv : PyVal) (w h : Option Int) (alt : String)
    (index : Nat) : Except Unit (Bool × List EmitMethod) :=
  if truthy urlv = false then .ok (false, [])
  else
    let a := effectiveAlt auto_alt alt prompt index
    match pyLen urlv with
    | none => .error ()
    | some _ =>
      .ok (tryMethods (fun m => runMethod em urlv w h a m)
        (methodsFor valves.EMIT_METHOD_PRIORITY))

/-! ## User-valve prologue (source lines 119-158)

The statements `if __user__ and "valves" in __user__` and
`user_valves = __user__["valves"]` run before any `try`, so a `__user__`
value on which the membership test or the subscript raises makes the whole
call raise. -/

/-- Model of the Python membership test `key in v`: key lookup on dicts,
substring containment on strings, and `TypeError` on `None`/ints. -/
def pyContains (v : PyVal) (key : String) : Except Unit Bool :=
  match v with
  | .dict fields => .ok (dictGet fields key).isSome
  | .str s => .ok (strContainsSub s key)
  | _ => .error ()

/-- Model of the Python subscript `v[key]`: dict lookup (`KeyError` when
missing); every other shape raises `TypeError`. -/
def pySubscript (v : PyVal) (key : String) : Except Unit PyVal :=
  match v with
  | .dict fields =>
    match dictGet fields key with
    | some x => .ok x
    | none => .error ()
  | _ => .error ()

/-- Translation of source lines 120-122: `user_valves` is the `"valves"`
entry of `__user__` when `__user__` is truthy and contains it, else the
Python `None` (modelled as `Option.none`). -/
def userValvesStep (user : PyVal) : Except Unit (Option PyVal) :=
  if truthy user then
    match pyContains user "valves" with
    | .error e => .error e
    | .ok true =>
      match pySubscript user "valves" with
      | .error e => .error e
      | .ok v => .ok (some v)
    | .ok false => .ok none
  else .ok none

/-- First present candidate key of a dict (the mapping branch of
`_get_valve`, source lines 130-133: `if k in uvalves: return uvalves[k]`).
Presence, not truthiness, selects the entry. -/
def firstFound (fields : PyFields) : List String → Option PyVal
  | [] => none
  | k :: rest =>
    match dictGet fields k with
    | some v => some v
    | none => firstFound fields rest

/-- Translation of `_get_valve` (source lines 125-146) on the modelled
values: `None` and absent valves give the default; dict-shaped valves are
scanned for the candidate keys in order.  Attribute-style objects are not
representable in `PyVal` (they carry no attributes), so they also fall to
the default, matching `_get_valve`'s behaviour on attribute-less values.
A `PyVal.pyNone` stored under `"valves"` is Python `None` and also gives
the default (`if uvalves is None: return default`). -/
def getValve (uv : Option PyVal) (candidates : List String) : Option PyVal :=
  match uv with
  | some (.dict fields) => firstFound fields candidates
  | _ => none

/-- Truthiness of a `_get_valve` result, with the default applied when no
value was found. -/
def valveAsBool (uv : Option PyVal) (candidates : List String)
    (default : Bool) : Bool :=
  match getValve uv candidates with
  | some v => truthy v
  | none => default

/-! ## Orchestration (`generate_image`, source lines 102-645) -/

/-- The host request object: only the setting the tool touches,
`__request__.app.state.config.IMAGE_STEPS`.  The stored value is an
`Option Int` because any Python attribute may hold `None`. -/
structure HostRequest where
  imageSteps : Option Int
deriving DecidableEq

/-- Response of the host generation collaborator `image_generations`
(source line 447): `None`, a list of descriptors, or a single bare value. -/
inductive GenResponse where
  | pyNone
  | items (xs : List PyVal)
  | single (v : PyVal)

/-- Normalization of the response (source lines 470-476). -/
def normalizeResponse : GenResponse → List PyVal
  | .pyNone => []
  | .items xs => xs
  | .single v => [v]

/-- The `raw` field of the success result (source lines 601-605): the raw
response when `VERBOSE_LOGGING` is set, else a redaction placeholder. -/
inductive RawEcho where
  | full (resp : GenResponse)
  | hidden

/-- The success-shaped result of `generate_image` (source lines 596-614):
`success=true` plus the processed image list, the emitted count, the total
count, the raw echo and the constant method tag. -/
structure SuccessResult where
  images : List PyVal
  images_emitted : Nat
  total_processed : Nat
  raw : RawEcho
  method : String

/-- The two result shapes of `generate_image`: the success dict (lines
596-614) or the failure dict `\x7bsuccess: false, error, internal_trace,
valves_config\x7d` (lines 624-636), whose error/trace strings carry no
information the claims inspect. -/
inductive GenResult where
  | success (r : SuccessResult)
  | failure

/-- Sequential processing of all raw items (the `for idx, it in
enumerate(raw_items)` loop, source lines 480-569); an exception at any item
aborts the whole body. -/
def processAll (fs : FileSys) (valves : Valves) :
    List PyVal → Except Unit (List PyVal)
  | [] => .ok []
  | it :: rest =>
    match processItem fs valves it with
    | .error e => .error e
    | .ok p =>
      match processAll fs valves rest with
      | .error e => .error e
      | .ok ps => .ok (p :: ps)

/-- The emission loop (source lines 575-589): each image is emitted with
alt `"imagen_generada_<idx>"`; successes are counted; an exception inside
`_emit_image` aborts the body. -/
def emitAll (valves : Valves) (em : Emitter) (prompt : String)
    (auto_alt : Bool) (w h : Option Int) :
    List PyVal → Nat → Except Unit Nat
  | [], _ => .ok 0
  | u :: rest, idx =>
    match emit_image valves em prompt auto_alt u w h
        ("imagen_generada_" ++ toString idx) idx with
    | .error e => .error e
    | .ok (b, _) =>
      match emitAll valves em prompt auto_alt w h rest (idx + 1) with
      | .error e => .error e
      | .ok n => .ok ((if b then 1 else 0) + n)

/-- The `try` body of `generate_image` (source lines 388-614), with the
`except` clause of lines 616-636 folded in: any raise inside the body
yields the failure shape.  `gen` is the outcome of the import of the host
modules plus the `image_generations` call — `.error` when that section
raises, `.ok resp` when it returns a response. -/
def runBody (fs : FileSys) (valves : Valves) (em : Emitter)
    (gen : Except Unit GenResponse) (prompt : String) (width height : Int)
    (auto_alt : Bool) : GenResult :=
  match gen with
  | .error _ => .failure
  | .ok resp =>
    let raw_items := normalizeResponse resp
    match processAll fs valves raw_items with
    | .error _ => .failure
    | .ok processed =>
      let images_out := processed.filter truthy
      match emitAll valves em prompt auto_alt (some width) (some height)
          images_out 1 with
      | .error _ => .failure
      | .ok success_count =>
        .success
          { images := images_out
            images_emitted := success_count
            total_processed := images_out.length
            raw := if valves.VERBOSE_LOGGING then .full resp else .hidden
            method := "internal" }

/-- Full outcome of a `generate_image` invocation: the returned value (or
the escaped exception), the `__request__` state at the moment control
reaches the generation section, and the `__request__` state after the
`finally` clause. -/
structure GIOutcome where
  outcome : Except Unit GenResult
  reqAtGen : Option (Option HostRequest)
  reqFinal : Option HostRequest

/-- Translation of `generate_image` (source lines 102-645).

Order of the source: the user-valve prologue (lines 119-158, outside any
`try`; a raise there escapes), the steps override (lines 377-386: read
`IMAGE_STEPS` into `original_steps`, write `steps`, all inside its own
`try/except`; the read fails iff `__request__` is `None`), the `try` body
(lines 388-614 with the `except` of 616-636), and the `finally` clause
(lines 638-645: write `original_steps` back only when it `is not None`).
Python `None` read from the setting and the read-failure sentinel are the
same value `original_steps = None`, exactly as in the source. -/
def generate_image (fs : FileSys) (valves : Valves) (user : PyVal)
    (req0 : Option HostRequest) (em : Emitter) (gen : Except Unit GenResponse)
    (prompt : String) (width height : Int) (steps : Int) : GIOutcome :=
  match userValvesStep user with
  | .error _ => { outcome := .error (), reqAtGen := none, reqFinal := req0 }
  | .ok uv =>
    let auto_alt :=
      valveAsBool uv ["AUTO_ALT_TEXT", "auto_alt_text", "autoAltText"] true
    let original_steps : Option Int :=
      match req0 with
      | some r => r.imageSteps
      | none => none
    let req1 : Option HostRequest :=
      match req0 with
      | some _ => some { imageSteps := some steps }
      | none => none
    let body := runBody fs valves em gen prompt width height auto_alt
    let reqFinal :=
      match original_steps with
      | some v => some { imageSteps := some v }
      | none => req1
    { outcome := .ok body, reqAtGen := some req1, reqFinal := reqFinal }

/-! ## Claim-side definitions

These definitions restate parts of the specification in its own words, to
be compared with the definitions translated from the source. -/

/-- Spec wording of C3: the first field of the scan order that is present
with a non-empty (truthy) value. -/
def firstPresentTruthy (it : PyFields) : List String → Option (String × PyVal)
  | [] => none
  | f :: rest =>
    match dictGet it f with
    | some v => if truthy v then some (f, v) else firstPresentTruthy it rest
    | none => firstPresentTruthy it rest

/-- A field/value pair on which the source's loop actually breaks:
`url`/`file_path`/`path` and `b64`/`base64` fields always break once
truthy; any other listed field breaks only when its value is a string
starting with `data:` or `http`. -/
def isActionable (field : String) (v : PyVal) : Bool :=
  if field == "url" || field == "file_path" || field == "path" then true
  else if field == "b64" || field == "base64" then true
  else
    match v with
    | .str s => strStartsWith s "data:" || strStartsWith s "http"
    | _ => false

/-- The first field of the scan order that is present, truthy and
actionable (amended wording of C3). -/
def firstActionable (it : PyFields) : List String → Option (String × PyVal)
  | [] => none
  | f :: rest =>
    match dictGet it f with
    | some v =>
      if truthy v && isActionable f v then some (f, v)
      else firstActionable it rest
    | none => firstActionable it rest

/-- Outcome of the loop body once it breaks on a given field/value pair
(the three `break`ing branches of source lines 512-542, restated by
field class). -/
def fieldOutcome (fs : FileSys) (valves : Valves) (field : String)
    (v : PyVal) : Except Unit (Option PyVal) :=
  if field == "url" || field == "file_path" || field == "path" then
    .ok (some (resolvePathField fs valves v))
  else if field == "b64" || field == "base64" then
    match v with
    | .str s => .ok (some (.str (make_data_uri_from_b64 s "image/png")))
    | _ => .error ()
  else .ok (some v)

/-- The extension→MIME table exactly as the specification words it:
jpg/jpeg→image/jpeg, png→image/png, webp→image/webp, gif→image/gif,
bmp→image/bmp, tiff→image/tiff, anything else defaults to image/png. -/
def mimeSpecTable (e : String) : String :=
  if e = ".jpg" ∨ e = ".jpeg" then "image/jpeg"
  else if e = ".png" then "image/png"
  else if e = ".webp" then "image/webp"
  else if e = ".gif" then "image/gif"
  else if e = ".bmp" then "image/bmp"
  else if e = ".tiff" then "image/tiff"
  else "image/png"

/-- The method the configuration names first (spec wording of C8; `auto`
starts with `direct`). -/
def configuredFirst : EmitPriority → EmitMethod
  | .auto => .direct
  | .direct => .direct
  | .markdown => .markdown
  | .html => .html

/-- Whether an invocation outcome is a returned dict (as opposed to an
escaped exception). -/
def exceptIsOk : Except Unit GenResult → Bool
  | .ok _ => true
  | .error _ => false

/-! ## Concrete fixtures for counterexamples and witnesses -/

/-- A filesystem with a single oversized file `/big.png` (11 MiB, above the
default 10 MB limit). -/
def fsBig : FileSys :=
  { pathExists := fun p => p == "/big.png"
    isFile := fun p => p == "/big.png"
    size := fun _ => 11534336
    content := fun _ => [] }

/-- A filesystem with a single small two-byte file `/a.png`. -/
def fsGood : FileSys :=
  { pathExists := fun p => p == "/a.png"
    isFile := fun p => p == "/a.png"
    size := fun _ => 2
    content := fun _ => [137, 80] }

/-- Default valves with `EMIT_METHOD_PRIORITY = html`. -/
def valvesHtml : Valves :=
  { defaultValves with EMIT_METHOD_PRIORITY := .html }

/-- Descriptor whose first present non-empty field (`image`) is not
actionable while a later field (`src`) is. -/
def c3Fields : PyFields :=
  .cons "image" (.str "foo") (.cons "src" (.str "http://a") .nil)

/-! ## Helper lemmas -/

/-- A string of the `data:<mime>;base64,<payload>` shape starts with
`data:`. -/
lemma strStartsWith_data_uri (m b : String) :
    strStartsWith ("data:" ++ m ++ ";base64," ++ b) "data:" = true := by
  simp only [strStartsWith, String.data_append, List.isPrefixOf_iff_prefix,
    decide_eq_true_eq, List.append_assoc]
  exact List.prefix_append _ _

/-- A string of the `data:<mime>;base64,<payload>` shape is not empty. -/
lemma data_uri_ne_empty (m b : String) :
    ("data:" ++ m ++ ";base64," ++ b) ≠ "" := by
  intro h
  have hl := congrArg String.length h
  have h5 : ("data:" : String).length = 5 := rfl
  have h0 : ("" : String).length = 0 := rfl
  simp only [String.length_append, h5, h0] at hl
  omega

/-- Unfolding of the source's method loop: the success flag is `true` iff
some method in the list succeeds. -/
lemma tryMethods_fst (run : EmitMethod → Bool) :
    ∀ L, (tryMethods run L).1 = L.any run := by
  intro L
  induction L with
  | nil => rfl
  | cons m rest ih =>
    by_cases h : run m = true
    · simp [tryMethods, h]
    · simp only [Bool.not_eq_true] at h
      simp [tryMethods, h, ih]

/-- Unfolding of the source's method loop: the attempted methods are the
failing prefix followed by the first success, if any. -/
lemma tryMethods_snd (run : EmitMethod → Bool) :
    ∀ L, (tryMethods run L).2 =
      L.takeWhile (fun m => !run m) ++
        (L.dropWhile (fun m => !run m)).take 1 := by
  intro L
  induction L with
  | nil => rfl
  | cons m rest ih =>
    by_cases h : run m = true
    · simp [tryMethods, h, List.takeWhile_cons, List.dropWhile_cons]
    · simp only [Bool.not_eq_true] at h
      simp [tryMethods, h, ih, List.takeWhile_cons, List.dropWhile_cons]

/-- The emitted-success counter never exceeds the number of images
emitted over. -/
lemma emitAll_le (valves : Valves) (em : Emitter) (prompt : String)
    (auto_alt : Bool) (w h : Option Int) :
    ∀ (L : List PyVal) (idx n : Nat),
      emitAll valves em prompt auto_alt w h L idx = .ok n → n ≤ L.length := by
  intro L
  induction L with
  | nil =>
    intro idx n hn
    simp only [emitAll] at hn
    cases hn
    exact Nat.le_refl 0
  | cons u rest ih =>
    intro idx n hn
    simp only [emitAll] at hn
    cases he : emit_image valves em prompt auto_alt u w h
        ("imagen_generada_" ++ toString idx) idx with
    | error e => rw [he] at hn; cases hn
    | ok p =>
      rw [he] at hn
      cases hr : emitAll valves em prompt auto_alt w h rest (idx + 1) with
      | error e => rw [hr] at hn; cases hn
      | ok k =>
        rw [hr] at hn
        have hk := ih (idx + 1) k hr
        cases hn
        simp only [List.length_cons]
        cases p.1 <;> simp <;> omega

/-- Inversion of `firstActionable`: the selected field is present, its
value truthy and actionable. -/
lemma firstActionable_some (it : PyFields) :
    ∀ L f v, firstActionable it L = some (f, v) →
      dictGet it f = some v ∧ truthy v = true ∧ isActionable f v = true := by
  intro L
  induction L with
  | nil => intro f v h; cases h
  | cons g rest ih =>
    intro f v h
    simp only [firstActionable] at h
    cases hg : dictGet it g with
    | none => rw [hg] at h; exact ih f v h
    | some w =>
      rw [hg] at h
      have h2 : (if (truthy w && isActionable g w) = true then some (g, w)
          else firstActionable it rest) = some (f, v) := h
      by_cases ht : (truthy w && isActionable g w) = true
      · rw [if_pos ht] at h2
        cases h2
        simp only [Bool.and_eq_true] at ht
        exact ⟨hg, ht.1, ht.2⟩
      · rw [if_neg ht] at h2
        exact ih f v h2

/-- The source's field loop agrees with the claim-side scan: it returns
the branch outcome of the first present, truthy, actionable field, and
`none` when there is no such field. -/
lemma scanFields_eq (fs : FileSys) (valves : Valves) (it : PyFields) :
    ∀ L, scanFields fs valves it L =
      (match firstActionable it L with
       | none => .ok none
       | some (f, v) => fieldOutcome fs valves f v) := by
  intro L
  induction L with
  | nil => rfl
  | cons f rest ih =>
    simp only [scanFields, firstActionable]
    cases hg : dictGet it f with
    | none => exact ih
    | some v =>
      cases ht : truthy v with
      | false => simp [ht, ih]
      | true =>
        simp only [ht, Bool.true_and]
        rw [if_neg (by simp)]
        by_cases hp : (f == "url" || f == "file_path" || f == "path") = true
        · simp [hp, isActionable, fieldOutcome]
        · simp only [Bool.not_eq_true] at hp
          by_cases hb : (f == "b64" || f == "base64") = true
          · simp [hp, hb, isActionable, fieldOutcome]
          · simp only [Bool.not_eq_true] at hb
            cases v with
            | str s =>
              by_cases hd :
                  (strStartsWith s "data:" || strStartsWith s "http") = true
              · simp [hp, hb, hd, isActionable, fieldOutcome]
              · simp only [Bool.not_eq_true] at hd
                simp [hp, hb, hd, isActionable, ih]
            | pyNone => simp [hp, hb, isActionable, ih]
            | int n => simp [hp, hb, isActionable, ih]
            | dict d => simp [hp, hb, isActionable, ih]

/-- The materializer's result on the success path. -/
lemma path_to_data_uri_success (fs : FileSys) (valves : Valves) (path : String)
    (h1 : fs.pathExists path = true) (h2 : fs.isFile path = true)
    (h3 : ¬((fs.size path : Int) > valves.MAX_FILE_SIZE_MB * 1024 * 1024))
    (h4 : (supported_exts valves.SUPPORTED_FORMATS).contains
      (lowerStr (pySuffix (pathName path))) = true) :
    path_to_data_uri fs valves path =
      "data:" ++
        lookupD mime_map (lowerStr (pySuffix (pathName path))) "image/png" ++
        ";base64," ++ base64Encode (fs.content path) := by
  simp only [path_to_data_uri, h1, h2, h4]
  rw [if_neg (by simp), if_neg (by simp), if_neg h3, if_neg (by simp)]

/-- The materializer returns either the empty failure marker or a
`data:`-prefixed URI. -/
lemma path_to_data_uri_empty_or_data (fs : FileSys) (valves : Valves)
    (path : String) :
    path_to_data_uri fs valves path = "" ∨
      strStartsWith (path_to_data_uri fs valves path) "data:" = true := by
  simp only [path_to_data_uri]
  split_ifs <;> simp [strStartsWith_data_uri]

/-- Under the size rejection the materializer fails regardless of any
other data. -/
lemma path_to_data_uri_oversize (fs : FileSys) (valves : Valves)
    (path : String)
    (h : (fs.size path : Int) > valves.MAX_FILE_SIZE_MB * 1024 * 1024) :
    path_to_data_uri fs valves path = "" := by
  simp only [path_to_data_uri]
  split_ifs <;> rfl

/-- The source's `mime_map` lookup with default agrees with the table as
the specification words it. -/
lemma lookupD_mime_map (e : String) :
    lookupD mime_map e "image/png" = mimeSpecTable e := by
  by_cases h1 : e = ".jpg"
  · subst h1; rfl
  by_cases h2 : e = ".jpeg"
  · subst h2; rfl
  by_cases h3 : e = ".webp"
  · subst h3; rfl
  by_cases h4 : e = ".gif"
  · subst h4; rfl
  by_cases h5 : e = ".bmp"
  · subst h5; rfl
  by_cases h6 : e = ".tiff"
  · subst h6; rfl
  by_cases h7 : e = ".png"
  · subst h7; rfl
  have g1 : (".jpg" == e) = false := beq_eq_false_iff_ne.mpr fun hh => h1 hh.symm
  have g2 : (".jpeg" == e) = false := beq_eq_false_iff_ne.mpr fun hh => h2 hh.symm
  have g3 : (".webp" == e) = false := beq_eq_false_iff_ne.mpr fun hh => h3 hh.symm
  have g4 : (".gif" == e) = false := beq_eq_false_iff_ne.mpr fun hh => h4 hh.symm
  have g5 : (".bmp" == e) = false := beq_eq_false_iff_ne.mpr fun hh => h5 hh.symm
  have g6 : (".tiff" == e) = false := beq_eq_false_iff_ne.mpr fun hh => h6 hh.symm
  have g7 : (".png" == e) = false := beq_eq_false_iff_ne.mpr fun hh => h7 hh.symm
  simp [lookupD, mime_map, List.find?, g1, g2, g3, g4, g5, g6, g7,
    mimeSpecTable, h1, h2, h3, h4, h5, h6, h7]

/-! ## Claim C5 -/

/-- Claim C5 (confirmed): `_path_to_data_uri` is total — in the embedding
it returns a string on every input, mirroring the source's catch-all
`except` — and it returns the empty string exactly when the path does not
exist, is not a regular file, the size exceeds
`MAX_FILE_SIZE_MB * 1024 * 1024` bytes, or the lower-cased extension is
not among the configured `SUPPORTED_FORMATS`; moreover under the size
rejection the result does not depend on the file's content (it is `""`
for every content function), so the content is never read. -/
theorem c5_materializer_failure_iff (fs : FileSys) (valves : Valves)
    (path : String) :
    (path_to_data_uri fs valves path = "" ↔
      (fs.pathExists path = false ∨ fs.isFile path = false ∨
        (fs.size path : Int) > valves.MAX_FILE_SIZE_MB * 1024 * 1024 ∨
        (supported_exts valves.SUPPORTED_FORMATS).contains
          (lowerStr (pySuffix (pathName path))) = false))
    ∧ ((fs.size path : Int) > valves.MAX_FILE_SIZE_MB * 1024 * 1024 →
        ∀ g : String → List Nat,
          path_to_data_uri { fs with content := g } valves path = "") := by
  constructor
  · constructor
    · intro h
      by_contra hc
      push_neg at hc
      obtain ⟨hc1, hc2, hc3, hc4⟩ := hc
      have h1 : fs.pathExists path = true := by
        cases hx : fs.pathExists path
        · exact absurd hx hc1
        · rfl
      have h2 : fs.isFile path = true := by
        cases hx : fs.isFile path
        · exact absurd hx hc2
        · rfl
      have h4 : (supported_exts valves.SUPPORTED_FORMATS).contains
          (lowerStr (pySuffix (pathName path))) = true := by
        cases hx : (supported_exts valves.SUPPORTED_FORMATS).contains
            (lowerStr (pySuffix (pathName path)))
        · exact absurd hx hc4
        · rfl
      rw [path_to_data_uri_success fs valves path h1 h2 (not_lt.mpr hc3) h4] at h
      exact data_uri_ne_empty _ _ h
    · intro h
      simp only [path_to_data_uri]
      split_ifs with g1 g2 g3 g4
      · rfl
      · rfl
      · rfl
      · rfl
      · rcases h with h | h | h | h
        · exact absurd h g1
        · exact absurd h g2
        · exact absurd h g3
        · exact absurd h g4
  · intro h g
    exact path_to_data_uri_oversize { fs with content := g } valves path h

/-! ## Claim C7 -/

/-- Claim C7 (confirmed): `_make_data_uri_from_b64` returns a value already
in `data:` form unchanged, otherwise prefixes `data:image/png;base64,`;
the output always starts with `data:`, the input is always a suffix of the
output, and the conversion is idempotent. -/
theorem c7_b64_data_uri_properties (s : String) :
    (strStartsWith s "data:" = true → make_data_uri_from_b64 s "image/png" = s)
    ∧ (strStartsWith s "data:" = false →
        make_data_uri_from_b64 s "image/png" = "data:image/png;base64," ++ s)
    ∧ strStartsWith (make_data_uri_from_b64 s "image/png") "data:" = true
    ∧ s.data.isSuffixOf (make_data_uri_from_b64 s "image/png").data = true
    ∧ make_data_uri_from_b64 (make_data_uri_from_b64 s "image/png")
        "image/png" = make_data_uri_from_b64 s "image/png" := by
  by_cases h : strStartsWith s "data:" = true
  · have hmk : make_data_uri_from_b64 s "image/png" = s := by
      simp [make_data_uri_from_b64, h]
    refine ⟨fun _ => hmk, ?_, ?_, ?_, ?_⟩
    · intro hf
      rw [h] at hf
      cases hf
    · rw [hmk]; exact h
    · rw [hmk]
      simp [List.isSuffixOf_iff_suffix]
    · rw [hmk, hmk]
  · have hf : strStartsWith s "data:" = false := by simpa using h
    have hmk : make_data_uri_from_b64 s "image/png" =
        "data:image/png;base64," ++ s := by
      simp [make_data_uri_from_b64, hf]
    have hpre : strStartsWith ("data:image/png;base64," ++ s) "data:" = true :=
      strStartsWith_data_uri "image/png" s
    refine ⟨?_, fun _ => hmk, ?_, ?_, ?_⟩
    · intro ht
      rw [ht] at hf
      cases hf
    · rw [hmk]; exact hpre
    · rw [hmk]
      simp only [List.isSuffixOf_iff_suffix, String.data_append]
      exact List.suffix_append _ _
    · rw [hmk]
      simp [make_data_uri_from_b64, hpre]

/-- Claim C5 witness: a concrete oversized file is rejected with `""`
independently of its content. -/
theorem c5_witness :
    (fsBig.size "/big.png" : Int) >
        defaultValves.MAX_FILE_SIZE_MB * 1024 * 1024
    ∧ path_to_data_uri { fsBig with content := fun _ => [7] } defaultValves
        "/big.png" = "" :=
  ⟨by decide,
    (c5_materializer_failure_iff fsBig defaultValves "/big.png").2 (by decide)
      (fun _ => [7])⟩

/-! ## Claim C6 -/

/-- Claim C6 (confirmed): for a file passing the existence, regular-file,
size and extension checks, the materializer returns
`data:<mime>;base64,<payload>` where the payload is the base64 encoding of
the file's bytes and the MIME type comes from the fixed table (jpg/jpeg →
image/jpeg, png → image/png, webp, gif, bmp, tiff likewise), defaulting to
image/png for any other extension. -/
theorem c6_materializer_success_format (fs : FileSys) (valves : Valves)
    (path : String)
    (h1 : fs.pathExists path = true) (h2 : fs.isFile path = true)
    (h3 : ¬((fs.size path : Int) > valves.MAX_FILE_SIZE_MB * 1024 * 1024))
    (h4 : (supported_exts valves.SUPPORTED_FORMATS).contains
      (lowerStr (pySuffix (pathName path))) = true) :
    path_to_data_uri fs valves path =
      "data:" ++ mimeSpecTable (lowerStr (pySuffix (pathName path))) ++
        ";base64," ++ base64Encode (fs.content path) := by
  rw [path_to_data_uri_success fs valves path h1 h2 h3 h4, lookupD_mime_map]

/-- Claim C6 witness: the concrete two-byte `/a.png` is materialized as a
PNG data URI carrying the base64 encoding of its bytes. -/
theorem c6_witness :
    path_to_data_uri fsGood defaultValves "/a.png" =
      "data:" ++ mimeSpecTable ".png" ++ ";base64," ++
        base64Encode [137, 80] :=
  c6_materializer_success_format fsGood defaultValves "/a.png" rfl rfl
    (by decide) (by decide)

/-- Claim C7 witness: a bare payload is wrapped into a
`data:image/png;base64,` URI. -/
theorem c7_witness :
    strStartsWith "abc" "data:" = false
    ∧ make_data_uri_from_b64 "abc" "image/png" = "data:image/png;base64,abc"
    ∧ strStartsWith (make_data_uri_from_b64 "abc" "image/png") "data:" = true :=
  ⟨by decide, (c7_b64_data_uri_properties "abc").2.1 (by decide),
    (c7_b64_data_uri_properties "abc").2.2.1⟩

/-! ## Claim C3 -/

/-- Claim C3 counterexample: in `\x7b"image": "foo", "src": "http://a"\x7d`
the first field present with a non-empty value is `image` with value
`"foo"`, yet the resolver's basis is the later `src` value `"http://a"`;
and in `\x7b"image": "foo"\x7d` a field is present with a non-empty value,
yet the resolver falls back to the JSON serialization of the mapping. -/
theorem c3_counterexample :
    firstPresentTruthy c3Fields priority_fields = some ("image", .str "foo")
    ∧ processItem fsEmpty defaultValves (.dict c3Fields) = .ok (.str "http://a")
    ∧ (PyVal.str "http://a" = PyVal.str "foo" → False)
    ∧ firstPresentTruthy (.cons "image" (.str "foo") .nil) priority_fields
        = some ("image", .str "foo")
    ∧ processItem fsEmpty defaultValves (.dict (.cons "image" (.str "foo") .nil))
        = .ok (.str "\x7b\"image\": \"foo\"\x7d") := by
  refine ⟨rfl, rfl, ?_, rfl, rfl⟩
  intro hcontra
  injection hcontra with hs
  exact absurd hs (by decide)

/-- Claim C3 (amended): the resolver uses the value of the first field of
the fixed scan order that is present with a non-empty and actionable value
— `url`/`file_path`/`path` and `b64`/`base64` fields are always actionable,
any other listed field only when its value is a string starting with
`data:` or `http` — and it falls back to the JSON-serialized mapping
exactly when there is no such field or the selected branch produced a
falsy result. -/
theorem c3_first_actionable_field (fs : FileSys) (valves : Valves)
    (fields : PyFields) :
    (firstActionable fields priority_fields = none →
      processItem fs valves (.dict fields) =
        .ok (.str (jsonDumps (.dict fields))))
    ∧ ∀ f v, firstActionable fields priority_fields = some (f, v) →
        processItem fs valves (.dict fields) =
          (match fieldOutcome fs valves f v with
           | .error e => .error e
           | .ok (some p) =>
             if truthy p then .ok p else .ok (.str (jsonDumps (.dict fields)))
           | .ok none => .ok (.str (jsonDumps (.dict fields)))) := by
  constructor
  · intro h
    simp only [processItem, scanFields_eq, h]
  · intro f v h
    simp only [processItem, scanFields_eq, h]

/-- Claim C3 witness: a descriptor whose first actionable field is `url`
resolves to that field's branch outcome. -/
theorem c3_witness :
    processItem fsEmpty defaultValves
      (.dict (.cons "url" (.str "https://u") .nil)) = .ok (.str "https://u") :=
  (c3_first_actionable_field fsEmpty defaultValves
    (.cons "url" (.str "https://u") .nil)).2 "url" (.str "https://u") rfl

/-! ## Claim C4 -/

/-- Claim C4 counterexample: `/big.png` exists and is a regular file, but
it is oversized, so the mapping `\x7b"url": "/big.png"\x7d` resolves to the
JSON fallback — neither a base64 data URI nor the unchanged value. -/
theorem c4_counterexample :
    fsBig.pathExists "/big.png" = true
    ∧ fsBig.isFile "/big.png" = true
    ∧ processItem fsBig defaultValves
        (.dict (.cons "url" (.str "/big.png") .nil))
        = .ok (.str "\x7b\"url\": \"/big.png\"\x7d")
    ∧ strStartsWith "\x7b\"url\": \"/big.png\"\x7d" "data:" = false
    ∧ ("\x7b\"url\": \"/big.png\"\x7d" : String) ≠ "/big.png" := by
  refine ⟨rfl, rfl, rfl, rfl, ?_⟩
  decide

/-- Claim C4 (amended): when the first actionable field is
`url`/`file_path`/`path` with a string value naming an existing regular
file, the resolver routes the value through the path materializer — the
basis is the materializer's `data:` URI when it succeeds and the JSON
fallback when it rejects the file; when the value does not name an
existing regular file it is passed through unchanged. -/
theorem c4_local_path_materialization (fs : FileSys) (valves : Valves)
    (fields : PyFields) (f s : String)
    (hfa : firstActionable fields priority_fields = some (f, .str s))
    (hf : f = "url" ∨ f = "file_path" ∨ f = "path") :
    ((fs.pathExists s && fs.isFile s) = true →
        processItem fs valves (.dict fields) =
          (if path_to_data_uri fs valves s = "" then
            .ok (.str (jsonDumps (.dict fields)))
          else .ok (.str (path_to_data_uri fs valves s)))
        ∧ (path_to_data_uri fs valves s ≠ "" →
            strStartsWith (path_to_data_uri fs valves s) "data:" = true))
    ∧ ((fs.pathExists s && fs.isFile s) = false →
        processItem fs valves (.dict fields) = .ok (.str s)) := by
  have hts := (firstActionable_some fields priority_fields f (.str s) hfa).2.1
  have hfb : (f == "url" || f == "file_path" || f == "path") = true := by
    rcases hf with hf | hf | hf <;> simp [hf]
  constructor
  · intro hex
    constructor
    · simp only [processItem, scanFields_eq, hfa, fieldOutcome, hfb, if_true]
      simp only [resolvePathField, hex, if_true]
      by_cases hp : path_to_data_uri fs valves s = ""
      · simp [hp, truthy]
      · simp [hp, truthy]
    · intro hne
      rcases path_to_data_uri_empty_or_data fs valves s with hq | hq
      · exact absurd hq hne
      · exact hq
  · intro hex
    simp only [processItem, scanFields_eq, hfa, fieldOutcome, hfb, if_true]
    simp [resolvePathField, hex, hts]

/-- Claim C4 witness: a `path` field naming no existing file passes
through unchanged. -/
theorem c4_witness :
    processItem fsEmpty defaultValves
      (.dict (.cons "path" (.str "/nope.png") .nil)) = .ok (.str "/nope.png") :=
  (c4_local_path_materialization fsEmpty defaultValves
    (.cons "path" (.str "/nope.png") .nil) "path" "/nope.png" rfl
    (Or.inr (Or.inr rfl))).2 rfl

/-! ## Claim C8 -/

/-- Claim C8 (confirmed): for a non-empty resolved image string the
dispatcher attempts the three methods in an order that puts the configured
`EMIT_METHOD_PRIORITY` method first (`auto` = direct, markdown, html),
stops at the first success (the attempted list is the failing prefix plus
the first success), succeeds iff some method succeeds, with priority
`html` and all transports failing it attempts html, direct, markdown in
that order before declaring failure, and an empty input fails with no
method attempted. -/
theorem c8_dispatcher_order_and_fallback (valves : Valves) (em : Emitter)
    (prompt alt : String) (auto_alt : Bool) (s : String) (w h : Option Int)
    (index : Nat) (hs : s ≠ "") :
    (emit_image valves em prompt auto_alt (.str s) w h alt index =
      .ok ((methodsFor valves.EMIT_METHOD_PRIORITY).any
            (fun m => runMethod em (.str s) w h
              (effectiveAlt auto_alt alt prompt index) m),
          (methodsFor valves.EMIT_METHOD_PRIORITY).takeWhile
              (fun m => !runMethod em (.str s) w h
                (effectiveAlt auto_alt alt prompt index) m) ++
            ((methodsFor valves.EMIT_METHOD_PRIORITY).dropWhile
              (fun m => !runMethod em (.str s) w h
                (effectiveAlt auto_alt alt prompt index) m)).take 1))
    ∧ (methodsFor valves.EMIT_METHOD_PRIORITY).head? =
        some (configuredFirst valves.EMIT_METHOD_PRIORITY)
    ∧ (methodsFor valves.EMIT_METHOD_PRIORITY).length = 3
    ∧ EmitMethod.direct ∈ methodsFor valves.EMIT_METHOD_PRIORITY
    ∧ EmitMethod.markdown ∈ methodsFor valves.EMIT_METHOD_PRIORITY
    ∧ EmitMethod.html ∈ methodsFor valves.EMIT_METHOD_PRIORITY
    ∧ (valves.EMIT_METHOD_PRIORITY = .auto →
        methodsFor valves.EMIT_METHOD_PRIORITY =
          [.direct, .markdown, .html])
    ∧ (valves.EMIT_METHOD_PRIORITY = .html →
        runMethod em (.str s) w h (effectiveAlt auto_alt alt prompt index)
            .html = false →
        runMethod em (.str s) w h (effectiveAlt auto_alt alt prompt index)
            .direct = false →
        runMethod em (.str s) w h (effectiveAlt auto_alt alt prompt index)
            .markdown = false →
        emit_image valves em prompt auto_alt (.str s) w h alt index =
          .ok (false, [.html, .direct, .markdown]))
    ∧ emit_image valves em prompt auto_alt (.str "") w h alt index =
        .ok (false, []) := by
  have htr : truthy (.str s) = true := by
    simp [truthy, hs]
  have hmain : emit_image valves em prompt auto_alt (.str s) w h alt index =
      .ok (tryMethods
        (fun m => runMethod em (.str s) w h
          (effectiveAlt auto_alt alt prompt index) m)
        (methodsFor valves.EMIT_METHOD_PRIORITY)) := by
    simp only [emit_image, htr, pyLen]
    rw [if_neg (by simp)]
  refine ⟨?_, ?_, ?_, ?_, ?_, ?_, ?_, ?_, ?_⟩
  · rw [hmain]
    exact congrArg Except.ok (Prod.ext (tryMethods_fst _ _) (tryMethods_snd _ _))
  · cases hpr : valves.EMIT_METHOD_PRIORITY <;>
      simp [methodsFor, configuredFirst]
  · cases hpr : valves.EMIT_METHOD_PRIORITY <;> simp [methodsFor]
  · cases hpr : valves.EMIT_METHOD_PRIORITY <;> simp [methodsFor]
  · cases hpr : valves.EMIT_METHOD_PRIORITY <;> simp [methodsFor]
  · cases hpr : valves.EMIT_METHOD_PRIORITY <;> simp [methodsFor]
  · intro hpr
    rw [hpr]
    rfl
  · intro hpr hh hd hm
    rw [hmain, hpr]
    simp [methodsFor, tryMethods, hh, hd, hm]
  · rfl

/-- Claim C8 witness: with priority `html` and no transport at all, the
dispatcher attempts html, then direct, then markdown, and fails. -/
theorem c8_witness :
    emit_image valvesHtml none "p" false (.str "x") none none "a" 1 =
      .ok (false, [.html, .direct, .markdown]) :=
  (c8_dispatcher_order_and_fallback valvesHtml none "p" "a" false "x" none
    none 1 (by decide)).2.2.2.2.2.2.2.1 rfl rfl rfl rfl

/-! ## Claim C1 -/

/-- Claim C1 counterexample: with the truthy non-mapping `__user__ = 1`
the membership test `"valves" in __user__` raises `TypeError` before any
`try`, so the invocation raises instead of returning a result dict. -/
theorem c1_counterexample :
    (generate_image fsEmpty defaultValves (.int 1) none none (.ok .pyNone)
      "p" 1024 1024 20).outcome = .error () := rfl

/-- Claim C1 (amended): for `__user__ = None` or any mapping-shaped
`__user__` (so the pre-`try` membership test and subscript cannot raise),
`generate_image` never raises: it returns one of the two result shapes —
the success dict or the failure dict (the two constructors of
`GenResult`) — for every filesystem, valve configuration, request, event
emitter and generation outcome, including a raising collaborator. -/
theorem c1_no_uncaught_exception_for_mapping_user (fs : FileSys)
    (valves : Valves) (user : PyVal) (req0 : Option HostRequest)
    (em : Emitter) (gen : Except Unit GenResponse) (prompt : String)
    (width height steps : Int)
    (h : user = PyVal.pyNone ∨ ∃ fields, user = PyVal.dict fields) :
    exceptIsOk ((generate_image fs valves user req0 em gen prompt width
      height steps).outcome) = true := by
  have huv : ∃ uv, userValvesStep user = .ok uv := by
    rcases h with h | ⟨fields, h⟩
    · subst h
      exact ⟨none, rfl⟩
    · subst h
      cases fields with
      | nil => exact ⟨none, rfl⟩
      | cons k v rest =>
        cases hd : dictGet (.cons k v rest) "valves" with
        | none =>
          exact ⟨none, by simp [userValvesStep, truthy, pyContains, hd]⟩
        | some x =>
          exact ⟨some x,
            by simp [userValvesStep, truthy, pyContains, pySubscript, hd]⟩
  obtain ⟨uv, huv⟩ := huv
  simp [generate_image, huv, exceptIsOk]

/-- Claim C1 witness: a `None` user with a `None` request returns a
result dict. -/
theorem c1_witness :
    exceptIsOk ((generate_image fsEmpty defaultValves .pyNone none none
      (.ok .pyNone) "p" 1024 1024 20).outcome) = true :=
  c1_no_uncaught_exception_for_mapping_user fsEmpty defaultValves .pyNone
    none none (.ok .pyNone) "p" 1024 1024 20 (Or.inl rfl)

/-! ## Claim C2 -/

/-- Claim C2 counterexample: when the stored `IMAGE_STEPS` is Python
`None`, the read succeeds and the override happens, but the restore is
skipped — `original_steps = None` doubles as the read-failure sentinel —
so the final value is the override `20`, not the prior `None`. -/
theorem c2_counterexample :
    (generate_image fsEmpty defaultValves .pyNone
        (some { imageSteps := none }) none (.ok .pyNone)
        "p" 1024 1024 20).reqFinal = some { imageSteps := some 20 }
    ∧ (generate_image fsEmpty defaultValves .pyNone
        (some { imageSteps := none }) none (.ok .pyNone)
        "p" 1024 1024 20).reqFinal ≠ some { imageSteps := none } :=
  ⟨rfl, by decide⟩

/-- Claim C2 (amended): when the prologue does not raise and the initial
read of `IMAGE_STEPS` succeeds with a non-`None` value, the setting holds
the request's `steps` when control reaches the generation call, and on
every exit path — normal return and exception, for every generation
outcome — the final value equals the prior value. -/
theorem c2_steps_override_restored (fs : FileSys) (valves : Valves)
    (user : PyVal) (req0 : Option HostRequest) (em : Emitter)
    (gen : Except Unit GenResponse) (prompt : String)
    (width height steps v : Int) (uv : Option PyVal)
    (hu : userValvesStep user = .ok uv)
    (hr : req0 = some { imageSteps := some v }) :
    (generate_image fs valves user req0 em gen prompt width height
        steps).reqAtGen = some (some { imageSteps := some steps })
    ∧ (generate_image fs valves user req0 em gen prompt width height
        steps).reqFinal = some { imageSteps := some v } := by
  subst hr
  constructor <;> simp [generate_image, hu]

/-- Claim C2 witness: with stored steps `3` and a raising collaborator,
request steps `7` are installed for the call and `3` is restored. -/
theorem c2_witness :
    (generate_image fsEmpty defaultValves .pyNone
        (some { imageSteps := some 3 }) none (.error ())
        "p" 1024 1024 7).reqAtGen = some (some { imageSteps := some 7 })
    ∧ (generate_image fsEmpty defaultValves .pyNone
        (some { imageSteps := some 3 }) none (.error ())
        "p" 1024 1024 7).reqFinal = some { imageSteps := some 3 } :=
  c2_steps_override_restored fsEmpty defaultValves .pyNone
    (some { imageSteps := some 3 }) none (.error ()) "p" 1024 1024 7 3
    none rfl rfl

/-! ## Claim C9 -/

/-- Claim C9 (confirmed): when the generation collaborator returns `None`,
`generate_image` returns a success result with an empty image list,
`images_emitted = 0` and `total_processed = 0`, for every filesystem,
valves, request and emitter. -/
theorem c9_none_response_empty_success (fs : FileSys) (valves : Valves)
    (user : PyVal) (req0 : Option HostRequest) (em : Emitter)
    (prompt : String) (width height steps : Int) (uv : Option PyVal)
    (hu : userValvesStep user = .ok uv) :
    (generate_image fs valves user req0 em (.ok GenResponse.pyNone) prompt
        width height steps).outcome =
      .ok (.success
        { images := []
          images_emitted := 0
          total_processed := 0
          raw := if valves.VERBOSE_LOGGING then .full .pyNone else .hidden
          method := "internal" }) := by
  simp only [generate_image, hu]
  rfl

/-- Claim C9 witness: the concrete `None` response yields the empty
success result. -/
theorem c9_witness :
    (generate_image fsEmpty defaultValves .pyNone none none
        (.ok GenResponse.pyNone) "p" 1024 1024 20).outcome =
      .ok (.success
        { images := []
          images_emitted := 0
          total_processed := 0
          raw := .hidden
          method := "internal" }) :=
  c9_none_response_empty_success fsEmpty defaultValves .pyNone none none
    "p" 1024 1024 20 none rfl

/-! ## Claim C10 -/

/-- Success results of the `try` body carry only truthy images, a total
equal to the image-list length, and an emitted count bounded by it. -/
lemma runBody_success_inv (fs : FileSys) (valves : Valves) (em : Emitter)
    (gen : Except Unit GenResponse) (prompt : String)
    (width height : Int) (auto_alt : Bool) (r : SuccessResult)
    (h : runBody fs valves em gen prompt width height auto_alt =
      .success r) :
    r.images.all truthy = true
    ∧ r.total_processed = r.images.length
    ∧ r.images_emitted ≤ r.total_processed := by
  cases gen with
  | error e => simp [runBody] at h
  | ok resp =>
    simp only [runBody] at h
    cases hpa : processAll fs valves (normalizeResponse resp) with
    | error e => simp [hpa] at h
    | ok processed =>
      simp only [hpa] at h
      cases hea : emitAll valves em prompt auto_alt (some width)
          (some height) (processed.filter truthy) 1 with
      | error e => simp [hea] at h
      | ok cnt =>
        simp only [hea] at h
        injection h with h2
        subst h2
        refine ⟨?_, rfl, ?_⟩
        · simp only [List.all_eq_true]
          intro v hv
          exact (List.mem_filter.mp hv).2
        · exact emitAll_le valves em prompt auto_alt (some width)
            (some height) (processed.filter truthy) 1 cnt hea

/-- Claim C10 counterexample: the descriptor
`\x7b"url": \x7b"a": 1\x7d\x7d` makes `Path(value)` raise, the `except`
passes the dict value through, and the success result's `images` list
contains a dict — not a string. -/
theorem c10_counterexample :
    (generate_image fsEmpty defaultValves .pyNone none none
        (.ok (.items
          [.dict (.cons "url" (.dict (.cons "a" (.int 1) .nil)) .nil)]))
        "p" 1024 1024 20).outcome =
      .ok (.success
        { images := [.dict (.cons "a" (.int 1) .nil)]
          images_emitted := 0
          total_processed := 1
          raw := .hidden
          method := "internal" })
    ∧ isNonEmptyString (.dict (.cons "a" (.int 1) .nil)) = false :=
  ⟨rfl, rfl⟩

/-- Claim C10 (amended): in every success result every element of the
images list is truthy (in particular every string element is non-empty;
non-string elements such as passed-through dicts are possible),
`total_processed` equals the length of the images list, and
`images_emitted` is at most `total_processed`. -/
theorem c10_success_result_invariants (fs : FileSys) (valves : Valves)
    (user : PyVal) (req0 : Option HostRequest) (em : Emitter)
    (gen : Except Unit GenResponse) (prompt : String)
    (width height steps : Int) (r : SuccessResult)
    (h : (generate_image fs valves user req0 em gen prompt width height
      steps).outcome = .ok (.success r)) :
    r.images.all truthy = true
    ∧ r.total_processed = r.images.length
    ∧ r.images_emitted ≤ r.total_processed := by
  cases huv : userValvesStep user with
  | error e => simp [generate_image, huv] at h
  | ok uv =>
    simp only [generate_image, huv, Except.ok.injEq] at h
    exact runBody_success_inv fs valves em gen prompt width height _ r h

/-- Claim C10 witness: a concrete success result with one truthy image. -/
theorem c10_witness :
    ([PyVal.str "https://e/x.png"].all truthy = true)
    ∧ (1 : Nat) = [PyVal.str "https://e/x.png"].length
    ∧ (0 : Nat) ≤ 1 :=
  c10_success_result_invariants fsEmpty defaultValves .pyNone none none
    (.ok (.single (.str "https://e/x.png"))) "p" 1024 1024 20
    { images := [.str "https://e/x.png"]
      images_emitted := 0
      total_processed := 1
      raw := .hidden
      method := "internal" } rfl

end ImageGen
